import Mathlib

/-!
Verification of `fotoapp.py`.

A shallow embedding of the image-manipulation utility `src/fotoapp.py`
(the platform-aware fit-and-letterbox `resize` routine and the
`sketch_person` pipeline), together with proofs of the testable
properties stated by the specification.

Modelling conventions:
* A PIL image is a rectangular pixel grid: width, height and a pixel
  function (`Img` for RGB mode, `GrayImg` for mode "L").
* Python `float` arithmetic on the small quantities involved is modelled
  by exact rationals (`ℚ`); Python `int(x)` on the nonnegative values that
  occur is `⌊x⌋`.
* A Python function that may raise is a Lean function into `Except FotoError`;
  an exception propagates exactly where Python would propagate it.
* Network fetch / file decode performed by `load_image` is external I/O:
  a source argument is either an already-decoded image (`Except.ok`) or a
  fetch/decode failure (`Except.error msg`), which `load_image` re-raises.
-/

/-- A 24-bit RGB pixel value. -/
structure RGB where
  r : Nat
  g : Nat
  b : Nat
deriving DecidableEq, Repr

/-- An in-memory RGB image: integer width × height and a pixel grid
(the pixel function is queried at coordinates `x < width`, `y < height`). -/
structure Img where
  width : Nat
  height : Nat
  pixel : Nat → Nat → RGB

/-- A grayscale (PIL mode "L") image. -/
structure GrayImg where
  width : Nat
  height : Nat
  pixel : Nat → Nat → Nat

/-- Errors surfaced by the program, split the way the taxonomy of the spec splits
them: `loadError` covers `FetchError`/`DecodeError` propagated out of
`load_image` or `Image.open`, `valueError` is a Python `ValueError`
(the `InvalidArgument` of the spec). -/
inductive FotoError where
  | loadError : String → FotoError
  | valueError : String → FotoError
deriving DecidableEq, Repr

/-- A source argument (`url` in the Python code): either it decodes to an
image or fetching/decoding it fails with some error message. -/
abbrev Source := Except String Img

/-- Models the Python builtin `str.lower()` (fotoapp.py line 31) as lower-casing
each character of the string. On the ASCII platform names involved this is
exactly what Python does. -/
def str_lower (s : String) : String := ⟨s.data.map Char.toLower⟩

/-- The dictionary `PLATFORM_SIZES`: the fixed table of platform profiles
(fotoapp.py lines 7–12). -/
def PLATFORM_SIZES : List (String × Nat × Nat) :=
  [("youtube", (1280, 720)),
   ("instagram", (1080, 1080)),
   ("twitter", (1200, 675)),
   ("facebook", (1200, 630))]

/-- Function `load_image` (fotoapp.py lines 15–21): fetch/read and decode the source.
The I/O itself is external; its outcome is the `Source` argument, and
`load_image` surfaces a fetch/decode failure as a `loadError`. -/
def load_image (url : Source) : Except FotoError Img :=
  match url with
  | .ok img => .ok img
  | .error e => .error (.loadError e)

/-- The scale factor `min(target_width / width, target_height / height)`
(fotoapp.py line 40), in exact rational arithmetic. -/
def scaleFor (target_width target_height width height : Nat) : ℚ :=
  min ((target_width : ℚ) / width) ((target_height : ℚ) / height)

/-- Computes `new_width = int(width * scale)` (fotoapp.py line 41); the value is
nonnegative, so the Python truncation toward zero is the floor. -/
def new_width (target_width target_height width height : Nat) : Nat :=
  (⌊(width : ℚ) * scaleFor target_width target_height width height⌋).toNat

/-- Computes `new_height = int(height * scale)` (fotoapp.py line 42). -/
def new_height (target_width target_height width height : Nat) : Nat :=
  (⌊(height : ℚ) * scaleFor target_width target_height width height⌋).toNat

/-- Modelled from the spec: `image.resize((w, h), Image.LANCZOS)`
(fotoapp.py line 44) is an external library resample, beyond the scope of the spec
except for its dimensions ("the choice affects visual quality only, not
correctness"). The result has exactly the requested dimensions; the pixel
content is modelled as point sampling of the source grid. -/
def resample (img : Img) (w h : Nat) : Img :=
  { width := w
    height := h
    pixel := fun x y => img.pixel (x * img.width / w) (y * img.height / h) }

/-- Models `Image.new("RGB", (w, h), color)` (fotoapp.py line 45): a canvas of the
given size uniformly filled with `color`. -/
def imageNew (w h : Nat) (color : RGB) : Img :=
  { width := w, height := h, pixel := fun _ _ => color }

/-- The fixed white background color `(255, 255, 255)` (fotoapp.py line 45). -/
def white : RGB := ⟨255, 255, 255⟩

/-- Models `canvas.paste(im, (ox, oy))` (fotoapp.py line 48): opaque overwrite of the
rectangle of `im` at offset `(ox, oy)`; the canvas dimensions are unchanged. -/
def paste (canvas : Img) (im : Img) (ox oy : Nat) : Img :=
  { width := canvas.width
    height := canvas.height
    pixel := fun x y =>
      if ox ≤ x ∧ x < ox + im.width ∧ oy ≤ y ∧ y < oy + im.height then
        im.pixel (x - ox) (y - oy)
      else
        canvas.pixel x y }

/-- Computes `offset_x = (target_width - new_width) // 2` (fotoapp.py line 47).
`new_width ≤ target_width` always holds (proved below), so the natural-number
subtraction and division here agree with the Python integer arithmetic. -/
def offset_x (target_width target_height width height : Nat) : Nat :=
  (target_width - new_width target_width target_height width height) / 2

/-- Computes `offset_y = (target_height - new_height) // 2` (fotoapp.py line 47). -/
def offset_y (target_width target_height width height : Nat) : Nat :=
  (target_height - new_height target_width target_height width height) / 2

/-- Function `resize(url, platform)` (fotoapp.py lines 24–50): load the source, lower-case
and validate the platform name, scale the image uniformly to fit the target size
of the profile, and paste it centered on a white canvas of exactly the target size. -/
def resize (url : Source) (platform : String) : Except FotoError Img :=
  match load_image url with
  | .error e => .error e
  | .ok image =>
    match PLATFORM_SIZES.lookup (str_lower platform) with
    | none => .error (.valueError "Plataforma no valida.")
    | some (target_width, target_height) =>
      let width := image.width
      let height := image.height
      let nw := new_width target_width target_height width height
      let nh := new_height target_width target_height width height
      let resized := resample image nw nh
      let final_image := imageNew target_width target_height white
      .ok (paste final_image resized
            (offset_x target_width target_height width height)
            (offset_y target_width target_height width height))

/-- Models `img.convert("L")`: the RGB→grayscale conversion of the library
(ITU-R 601-2 luma: `L = (299 R + 587 G + 114 B) / 1000`). -/
def convertL (img : Img) : GrayImg :=
  { width := img.width
    height := img.height
    pixel := fun x y =>
      ((img.pixel x y).r * 299 + (img.pixel x y).g * 587 +
        (img.pixel x y).b * 114) / 1000 }

/-- Models `Image.open(image).convert("L")` (fotoapp.py line 159): open the source
(a fetch/decode failure propagates) and convert it to grayscale. -/
def openGray (image : Source) : Except FotoError GrayImg :=
  match image with
  | .ok img => .ok (convertL img)
  | .error e => .error (.loadError e)

/-- Modelled from the spec: `ImageFilter.GaussianBlur(5)` (fotoapp.py line 161)
is a stock library filter, out of scope for the spec ("one-line delegations to
library filters"); modelled as a dimension-preserving pixel transform. -/
def gaussianBlur5 (img : GrayImg) : GrayImg :=
  { width := img.width, height := img.height, pixel := img.pixel }

/-- Models `ImageOps.invert` (fotoapp.py line 162): each grayscale value `v`
becomes `255 - v`. -/
def invert (img : GrayImg) : GrayImg :=
  { width := img.width
    height := img.height
    pixel := fun x y => 255 - img.pixel x y }

/-- Models `Image.blend(im1, im2, alpha=0.7)` (fotoapp.py line 163): per-pixel
`im1 + 0.7 * (im2 - im1)`, rounded to an integer grayscale value. -/
def blend7 (im1 im2 : GrayImg) : GrayImg :=
  { width := im1.width
    height := im1.height
    pixel := fun x y =>
      (⌊(im1.pixel x y : ℚ) +
          7 / 10 * ((im2.pixel x y : ℚ) - (im1.pixel x y : ℚ)) + 1 / 2⌋).toNat }

/-- Modelled from the spec: `ImageFilter.FIND_EDGES` (fotoapp.py line 164) is a
stock library convolution filter, out of scope for the spec; modelled as a
dimension-preserving pixel transform. -/
def find_edges (img : GrayImg) : GrayImg :=
  { width := img.width, height := img.height, pixel := img.pixel }

/-- Function `sketch_person(image, output="boceto.png", persona=True)`
(fotoapp.py lines 150–167): raise a ValueError when `persona` is false —
this check precedes opening the image — otherwise open the image in
grayscale and apply the fixed blur/invert/blend/edge pipeline. Saving to
`output` is external I/O that does not affect the returned image. -/
def sketch_person (image : Source) (persona : Bool := true) :
    Except FotoError GrayImg :=
  if !persona then
    .error (.valueError "No se detecto una persona en la imagen.")
  else
    match openGray image with
    | .error e => .error e
    | .ok img =>
      let blurred := gaussianBlur5 img
      let inverted := invert blurred
      let sketch := blend7 img inverted
      .ok (find_edges sketch)

/-! ## Basic bounds on the fit arithmetic -/

lemma scaleFor_nonneg (tw th w h : Nat) : 0 ≤ scaleFor tw th w h :=
  le_min (div_nonneg (Nat.cast_nonneg tw) (Nat.cast_nonneg w))
    (div_nonneg (Nat.cast_nonneg th) (Nat.cast_nonneg h))

lemma mul_scaleFor_le_left (tw th w h : Nat) (hw : 0 < w) :
    (w : ℚ) * scaleFor tw th w h ≤ tw := by
  have hw' : (0 : ℚ) < w := by exact_mod_cast hw
  calc (w : ℚ) * scaleFor tw th w h
      ≤ (w : ℚ) * ((tw : ℚ) / w) :=
        mul_le_mul_of_nonneg_left (min_le_left _ _) hw'.le
    _ = tw := by field_simp

lemma mul_scaleFor_le_right (tw th w h : Nat) (hh : 0 < h) :
    (h : ℚ) * scaleFor tw th w h ≤ th := by
  have hh' : (0 : ℚ) < h := by exact_mod_cast hh
  calc (h : ℚ) * scaleFor tw th w h
      ≤ (h : ℚ) * ((th : ℚ) / h) :=
        mul_le_mul_of_nonneg_left (min_le_right _ _) hh'.le
    _ = th := by field_simp

lemma new_width_le (tw th w h : Nat) (hw : 0 < w) :
    new_width tw th w h ≤ tw := by
  rw [new_width, Int.toNat_le]
  calc ⌊(w : ℚ) * scaleFor tw th w h⌋
      ≤ ⌊(tw : ℚ)⌋ := Int.floor_le_floor (mul_scaleFor_le_left tw th w h hw)
    _ = (tw : ℤ) := Int.floor_natCast tw

lemma new_height_le (tw th w h : Nat) (hh : 0 < h) :
    new_height tw th w h ≤ th := by
  rw [new_height, Int.toNat_le]
  calc ⌊(h : ℚ) * scaleFor tw th w h⌋
      ≤ ⌊(th : ℚ)⌋ := Int.floor_le_floor (mul_scaleFor_le_right tw th w h hh)
    _ = (th : ℤ) := Int.floor_natCast th

lemma cast_new_width (tw th w h : Nat) :
    (new_width tw th w h : ℚ) = ⌊(w : ℚ) * scaleFor tw th w h⌋ := by
  have h0 : (0 : ℚ) ≤ (w : ℚ) * scaleFor tw th w h :=
    mul_nonneg (Nat.cast_nonneg w) (scaleFor_nonneg tw th w h)
  rw [new_width]
  exact_mod_cast Int.toNat_of_nonneg (Int.floor_nonneg.mpr h0)

lemma cast_new_height (tw th w h : Nat) :
    (new_height tw th w h : ℚ) = ⌊(h : ℚ) * scaleFor tw th w h⌋ := by
  have h0 : (0 : ℚ) ≤ (h : ℚ) * scaleFor tw th w h :=
    mul_nonneg (Nat.cast_nonneg h) (scaleFor_nonneg tw th w h)
  rw [new_height]
  exact_mod_cast Int.toNat_of_nonneg (Int.floor_nonneg.mpr h0)

lemma new_width_sandwich (tw th w h : Nat) :
    (w : ℚ) * scaleFor tw th w h - 1 < new_width tw th w h ∧
      (new_width tw th w h : ℚ) ≤ (w : ℚ) * scaleFor tw th w h := by
  rw [cast_new_width]
  exact ⟨Int.sub_one_lt_floor _, Int.floor_le _⟩

lemma new_height_sandwich (tw th w h : Nat) :
    (h : ℚ) * scaleFor tw th w h - 1 < new_height tw th w h ∧
      (new_height tw th w h : ℚ) ≤ (h : ℚ) * scaleFor tw th w h := by
  rw [cast_new_height]
  exact ⟨Int.sub_one_lt_floor _, Int.floor_le _⟩

/-! ## The claims -/

/-- C1: for every valid platform profile name and every source image with
positive width and height, `resize` returns an image whose width is exactly
the target width of the profile and whose height is exactly its target
height. -/
theorem C1_resize_output_dims (img : Img) (p : String) (tw th : Nat)
    (hp : PLATFORM_SIZES.lookup (str_lower p) = some (tw, th))
    (hw : 0 < img.width) (hh : 0 < img.height) :
    ∃ out, resize (.ok img) p = .ok out ∧ out.width = tw ∧ out.height = th := by
  unfold resize load_image
  rw [hp]
  exact ⟨_, rfl, rfl, rfl⟩

/-- C1 witness: a 4000×2000 image resized for `youtube` comes out 1280×720. -/
theorem C1_witness :
    ∃ out, resize (.ok ⟨4000, 2000, fun _ _ => white⟩) "youtube" = .ok out ∧
      out.width = 1280 ∧ out.height = 720 :=
  C1_resize_output_dims ⟨4000, 2000, fun _ _ => white⟩ "youtube" 1280 720
    (by decide) (by decide) (by decide)

/-- C2: for every valid profile and every source image with positive width and
height, the scaled dimensions computed inside `resize` — the floor of the source
dimension times `scale = min(target_width / width, target_height / height)` —
never exceed the target on either axis. -/
theorem C2_scaled_dims_fit (p : String) (tw th w h : Nat)
    (hp : PLATFORM_SIZES.lookup (str_lower p) = some (tw, th))
    (hw : 0 < w) (hh : 0 < h) :
    new_width tw th w h ≤ tw ∧ new_height tw th w h ≤ th :=
  ⟨new_width_le tw th w h hw, new_height_le tw th w h hh⟩

/-- C2 witness: a 4000×2000 source for the `youtube` profile scales to
1280×640, inside the 1280×720 target. -/
theorem C2_witness :
    new_width 1280 720 4000 2000 ≤ 1280 ∧ new_height 1280 720 4000 2000 ≤ 720 :=
  C2_scaled_dims_fit "youtube" 1280 720 4000 2000 (by decide) (by decide)
    (by decide)

/-- C3: for every successfully loaded source image and every platform name not
in the profile set (under the case-insensitive lookup the code performs),
`resize` raises the `ValueError` "Plataforma no valida." and produces no
output image. -/
theorem C3_unknown_platform_fails (img : Img) (p : String)
    (hp : PLATFORM_SIZES.lookup (str_lower p) = none) :
    resize (.ok img) p = .error (.valueError "Plataforma no valida.") := by
  unfold resize load_image
  rw [hp]

/-- C3 witness: `"tiktok"` is rejected. -/
theorem C3_witness :
    resize (.ok ⟨100, 100, fun _ _ => white⟩) "tiktok" =
      .error (.valueError "Plataforma no valida.") :=
  C3_unknown_platform_fails ⟨100, 100, fun _ _ => white⟩ "tiktok" (by decide)

/-- C4: for every valid profile and source image, the paste offsets computed by
`resize` are half the leftover space on each axis, rounded down, so the
leftover space splits into a left/top part `offset` and a right/bottom part
`leftover - offset` that differ by at most one pixel. -/
theorem C4_offsets_center (p : String) (tw th w h : Nat)
    (hp : PLATFORM_SIZES.lookup (str_lower p) = some (tw, th))
    (hw : 0 < w) (hh : 0 < h) :
    offset_x tw th w h = (tw - new_width tw th w h) / 2 ∧
    offset_y tw th w h = (th - new_height tw th w h) / 2 ∧
    offset_x tw th w h + offset_x tw th w h ≤ tw - new_width tw th w h ∧
    (tw - new_width tw th w h) ≤ offset_x tw th w h + offset_x tw th w h + 1 ∧
    offset_y tw th w h + offset_y tw th w h ≤ th - new_height tw th w h ∧
    (th - new_height tw th w h) ≤ offset_y tw th w h + offset_y tw th w h + 1 := by
  refine ⟨rfl, rfl, ?_, ?_, ?_, ?_⟩ <;>
    · simp only [offset_x, offset_y]
      omega

/-- C4 witness: for a 4000×2000 source and the `youtube` profile the offsets
are `(0, 40)` and the vertical leftover 80 splits as 40/40. -/
theorem C4_witness :
    offset_x 1280 720 4000 2000 = (1280 - new_width 1280 720 4000 2000) / 2 ∧
    offset_y 1280 720 4000 2000 = (720 - new_height 1280 720 4000 2000) / 2 ∧
    offset_x 1280 720 4000 2000 + offset_x 1280 720 4000 2000 ≤
      1280 - new_width 1280 720 4000 2000 ∧
    (1280 - new_width 1280 720 4000 2000) ≤
      offset_x 1280 720 4000 2000 + offset_x 1280 720 4000 2000 + 1 ∧
    offset_y 1280 720 4000 2000 + offset_y 1280 720 4000 2000 ≤
      720 - new_height 1280 720 4000 2000 ∧
    (720 - new_height 1280 720 4000 2000) ≤
      offset_y 1280 720 4000 2000 + offset_y 1280 720 4000 2000 + 1 :=
  C4_offsets_center "youtube" 1280 720 4000 2000 (by decide) (by decide)
    (by decide)

/-- C5 counterexample: for a 10000×10 source and the `instagram` profile
(1080×1080), the scaled dimensions are 1080×1- the truncation collapses the
height to a single pixel - and the aspect ratio of the scaled image is 1080
against a source ratio of 1000, an error of 80, not below a sub-pixel epsilon. -/
theorem C5_counterexample :
    PLATFORM_SIZES.lookup (str_lower "instagram") = some (1080, 1080) ∧
    new_width 1080 1080 10000 10 = 1080 ∧
    new_height 1080 1080 10000 10 = 1 ∧
    ¬ (|(new_width 1080 1080 10000 10 : ℚ) / (new_height 1080 1080 10000 10 : ℚ) -
          (10000 : ℚ) / (10 : ℚ)| < 1) := by
  have h1 : new_width 1080 1080 10000 10 = 1080 := by
    rw [new_width,
      show (⌊((10000 : ℕ) : ℚ) * scaleFor 1080 1080 10000 10⌋ : ℤ) = 1080 from by
        push_cast
        norm_num [scaleFor, min_def]]
    rfl
  have h2 : new_height 1080 1080 10000 10 = 1 := by
    rw [new_height,
      show (⌊((10 : ℕ) : ℚ) * scaleFor 1080 1080 10000 10⌋ : ℤ) = 1 from by
        push_cast
        norm_num [scaleFor, min_def]]
    rfl
  refine ⟨by decide, h1, h2, ?_⟩
  rw [h1, h2]
  norm_num

/-- C5 (amended): the scale factor is uniform across both axes and each scaled
dimension is within one pixel below its exact scaled value; consequently, when
the scaled height is positive, the aspect-ratio error is bounded by
`(w + h) / (h * scaled_height)` — a bound that shrinks as the scaled height
grows but is not below any fixed input-independent epsilon (and when the
scaled height is zero the scaled aspect ratio is undefined). -/
theorem C5_aspect_bound (p : String) (tw th w h : Nat)
    (hp : PLATFORM_SIZES.lookup (str_lower p) = some (tw, th))
    (hw : 0 < w) (hh : 0 < h) :
    ((w : ℚ) * scaleFor tw th w h - 1 < new_width tw th w h ∧
      (new_width tw th w h : ℚ) ≤ (w : ℚ) * scaleFor tw th w h) ∧
    ((h : ℚ) * scaleFor tw th w h - 1 < new_height tw th w h ∧
      (new_height tw th w h : ℚ) ≤ (h : ℚ) * scaleFor tw th w h) ∧
    (0 < new_height tw th w h →
      |(new_width tw th w h : ℚ) / (new_height tw th w h : ℚ) -
          (w : ℚ) / (h : ℚ)| <
        ((w : ℚ) + (h : ℚ)) / ((h : ℚ) * (new_height tw th w h : ℚ))) := by
  refine ⟨new_width_sandwich tw th w h, new_height_sandwich tw th w h, ?_⟩
  intro hnh
  have ha := new_width_sandwich tw th w h
  have hb := new_height_sandwich tw th w h
  set s := scaleFor tw th w h with hs
  set a := (new_width tw th w h : ℚ) with hadef
  set b := (new_height tw th w h : ℚ) with hbdef
  have hW : (0 : ℚ) < w := by exact_mod_cast hw
  have hH : (0 : ℚ) < h := by exact_mod_cast hh
  have hb0 : (0 : ℚ) < b := by rw [hbdef]; exact_mod_cast hnh
  rw [div_sub_div a (w : ℚ) (ne_of_gt hb0) (ne_of_gt hH), abs_div,
    abs_of_pos (mul_pos hb0 hH)]
  have hnum : |a * (h : ℚ) - b * (w : ℚ)| < (w : ℚ) + (h : ℚ) := by
    rw [abs_lt]
    constructor
    · nlinarith [mul_lt_mul_of_pos_right ha.1 hH,
        mul_le_mul_of_nonneg_left hb.2 hW.le]
    · nlinarith [mul_le_mul_of_nonneg_right ha.2 hH.le,
        mul_lt_mul_of_pos_left hb.1 hW]
  calc |a * (h : ℚ) - b * (w : ℚ)| / (b * (h : ℚ))
      < ((w : ℚ) + (h : ℚ)) / (b * (h : ℚ)) :=
        (div_lt_div_right (mul_pos hb0 hH)).mpr hnum
    _ = ((w : ℚ) + (h : ℚ)) / ((h : ℚ) * b) := by rw [mul_comm b]

/-- C5 witness: the amended bounds at a 4000×2000 source and the `youtube`
profile. -/
theorem C5_witness :
    ((4000 : ℚ) * scaleFor 1280 720 4000 2000 - 1 < new_width 1280 720 4000 2000 ∧
      (new_width 1280 720 4000 2000 : ℚ) ≤ (4000 : ℚ) * scaleFor 1280 720 4000 2000) ∧
    ((2000 : ℚ) * scaleFor 1280 720 4000 2000 - 1 < new_height 1280 720 4000 2000 ∧
      (new_height 1280 720 4000 2000 : ℚ) ≤ (2000 : ℚ) * scaleFor 1280 720 4000 2000) ∧
    (0 < new_height 1280 720 4000 2000 →
      |(new_width 1280 720 4000 2000 : ℚ) / (new_height 1280 720 4000 2000 : ℚ) -
          (4000 : ℚ) / (2000 : ℚ)| <
        ((4000 : ℚ) + (2000 : ℚ)) /
          ((2000 : ℚ) * (new_height 1280 720 4000 2000 : ℚ))) := by
  have := C5_aspect_bound "youtube" 1280 720 4000 2000 (by decide) (by decide)
    (by decide)
  exact_mod_cast this

lemma lookup_isSome_cases (q : String)
    (h : (PLATFORM_SIZES.lookup q).isSome = true) :
    q = "youtube" ∨ q = "instagram" ∨ q = "twitter" ∨ q = "facebook" := by
  by_cases h1 : q = "youtube"
  · exact Or.inl h1
  by_cases h2 : q = "instagram"
  · exact Or.inr (Or.inl h2)
  by_cases h3 : q = "twitter"
  · exact Or.inr (Or.inr (Or.inl h3))
  by_cases h4 : q = "facebook"
  · exact Or.inr (Or.inr (Or.inr h4))
  have e1 : (q == "youtube") = false := beq_eq_false_iff_ne.mpr h1
  have e2 : (q == "instagram") = false := beq_eq_false_iff_ne.mpr h2
  have e3 : (q == "twitter") = false := beq_eq_false_iff_ne.mpr h3
  have e4 : (q == "facebook") = false := beq_eq_false_iff_ne.mpr h4
  simp [PLATFORM_SIZES, List.lookup, e1, e2, e3, e4] at h

/-- C6: profile lookup is case-insensitive — for every source image and every
string that lower-cases to a valid profile name, `resize` succeeds and returns
the same result as for the lower-cased name. -/
theorem C6_case_insensitive (img : Img) (s : String)
    (hw : 0 < img.width) (hh : 0 < img.height)
    (hp : (PLATFORM_SIZES.lookup (str_lower s)).isSome = true) :
    (∃ out, resize (.ok img) s = .ok out) ∧
    resize (.ok img) s = resize (.ok img) (str_lower s) := by
  have hfix : str_lower (str_lower s) = str_lower s := by
    rcases lookup_isSome_cases _ hp with h | h | h | h <;> rw [h] <;> decide
  constructor
  · obtain ⟨⟨tw, th⟩, hsome⟩ := Option.isSome_iff_exists.mp hp
    unfold resize load_image
    rw [hsome]
    exact ⟨_, rfl⟩
  · unfold resize load_image
    rw [hfix]

/-- C6 witness: `"YouTube"` behaves exactly like `"youtube"`. -/
theorem C6_witness :
    (∃ out, resize (.ok ⟨4000, 2000, fun _ _ => white⟩) "YouTube" = .ok out) ∧
    resize (.ok ⟨4000, 2000, fun _ _ => white⟩) "YouTube" =
      resize (.ok ⟨4000, 2000, fun _ _ => white⟩) (str_lower "YouTube") :=
  C6_case_insensitive ⟨4000, 2000, fun _ _ => white⟩ "YouTube" (by decide)
    (by decide) (by decide)

/-- C7: for a 4000×2000 source and the `youtube` profile, `resize` computes
scale `8/25 = 0.32`, scaled dimensions 1280×640 and offsets `(0, 40)`, and
returns a 1280×720 canvas whose top 40 and bottom 40 rows are the white
background `(255, 255, 255)`. -/
theorem C7_youtube_example (pix : Nat → Nat → RGB) :
    scaleFor 1280 720 4000 2000 = 8 / 25 ∧
    new_width 1280 720 4000 2000 = 1280 ∧
    new_height 1280 720 4000 2000 = 640 ∧
    offset_x 1280 720 4000 2000 = 0 ∧
    offset_y 1280 720 4000 2000 = 40 ∧
    ∃ out, resize (.ok ⟨4000, 2000, pix⟩) "youtube" = .ok out ∧
      out.width = 1280 ∧ out.height = 720 ∧
      ∀ x y, x < 1280 → y < 720 → (y < 40 ∨ 680 ≤ y) →
        out.pixel x y = white := by
  have hs : scaleFor 1280 720 4000 2000 = 8 / 25 := by
    norm_num [scaleFor, min_def]
  have h1 : new_width 1280 720 4000 2000 = 1280 := by
    rw [new_width,
      show (⌊((4000 : ℕ) : ℚ) * scaleFor 1280 720 4000 2000⌋ : ℤ) = 1280 from by
        rw [hs]; push_cast; norm_num]
    rfl
  have h2 : new_height 1280 720 4000 2000 = 640 := by
    rw [new_height,
      show (⌊((2000 : ℕ) : ℚ) * scaleFor 1280 720 4000 2000⌋ : ℤ) = 640 from by
        rw [hs]; push_cast; norm_num]
    rfl
  have h3 : offset_x 1280 720 4000 2000 = 0 := by
    rw [offset_x, h1]
  have h4 : offset_y 1280 720 4000 2000 = 40 := by
    rw [offset_y, h2]
  have hres : resize (.ok ⟨4000, 2000, pix⟩) "youtube" =
      .ok (paste (imageNew 1280 720 white)
            (resample ⟨4000, 2000, pix⟩ 1280 640) 0 40) := by
    unfold resize load_image
    rw [show PLATFORM_SIZES.lookup (str_lower "youtube") = some (1280, 720) from
      by decide]
    show Except.ok (paste (imageNew 1280 720 white)
          (resample ⟨4000, 2000, pix⟩ (new_width 1280 720 4000 2000)
            (new_height 1280 720 4000 2000))
          (offset_x 1280 720 4000 2000) (offset_y 1280 720 4000 2000)) = _
    rw [h1, h2, h3, h4]
  refine ⟨hs, h1, h2, h3, h4, _, hres, rfl, rfl, ?_⟩
  intro x y hx hy hbar
  simp only [paste, imageNew, resample]
  split
  · exfalso
    omega
  · rfl

/-- C7 witness: the example instantiated at a concrete (all-black) source. -/
theorem C7_witness :
    scaleFor 1280 720 4000 2000 = 8 / 25 ∧
    new_width 1280 720 4000 2000 = 1280 ∧
    new_height 1280 720 4000 2000 = 640 ∧
    offset_x 1280 720 4000 2000 = 0 ∧
    offset_y 1280 720 4000 2000 = 40 ∧
    ∃ out, resize (.ok ⟨4000, 2000, fun _ _ => ⟨0, 0, 0⟩⟩) "youtube" = .ok out ∧
      out.width = 1280 ∧ out.height = 720 ∧
      ∀ x y, x < 1280 → y < 720 → (y < 40 ∨ 680 ≤ y) →
        out.pixel x y = white :=
  C7_youtube_example (fun _ _ => ⟨0, 0, 0⟩)

/-- C8: `resize` loads and decodes the source before validating the platform
name — a failing source makes `resize` propagate the fetch/decode error for
every platform name, recognized or not, so the `ValueError` is only ever
raised for sources that loaded successfully. -/
theorem C8_load_before_validation (e : String) (p : String) :
    resize (.error e) p = .error (.loadError e) ∧
    ∀ (src : Source) (m : String),
      resize src p = .error (.valueError m) → ∃ img, src = .ok img := by
  constructor
  · rfl
  · intro src m hval
    match src with
    | .ok img => exact ⟨img, rfl⟩
    | .error e' =>
      exact absurd hval (by simp [resize, load_image])

/-- C8 witness: a failed fetch surfaces as the fetch error even for the
unrecognized name `"tiktok"`. -/
theorem C8_witness :
    resize (.error "connection timed out") "tiktok" =
      .error (.loadError "connection timed out") :=
  (C8_load_before_validation "connection timed out" "tiktok").1

/-- C9: there are sources with positive width and height — for instance
1×10000 — for which the scaled width `resize` passes to the resample call is
zero, for every one of the four profiles. -/
theorem C9_zero_scaled_dimension :
    0 < 1 ∧ 0 < 10000 ∧
    PLATFORM_SIZES.lookup "youtube" = some (1280, 720) ∧
    new_width 1280 720 1 10000 = 0 ∧
    new_width 1080 1080 1 10000 = 0 ∧
    new_width 1200 675 1 10000 = 0 ∧
    new_width 1200 630 1 10000 = 0 := by
  refine ⟨by decide, by decide, by decide, ?_, ?_, ?_, ?_⟩ <;>
    · rw [new_width,
        show (⌊((1 : ℕ) : ℚ) * scaleFor _ _ 1 10000⌋ : ℤ) = 0 from by
          push_cast
          norm_num [scaleFor, min_def]]
      rfl

/-- C10: `sketch_person` raises its ValueError exactly when `persona` is
false; the check precedes opening the image, so it fires even for sources
that fail to open, and with `persona` true no ValueError is ever raised,
whatever the image content — no person detection is performed. -/
theorem C10_sketch_person_check (image : Source) (persona : Bool) :
    (∃ m, sketch_person image persona = .error (.valueError m)) ↔
      persona = false := by
  constructor
  · intro ⟨m, hm⟩
    match persona with
    | false => rfl
    | true =>
      match image with
      | .ok img => exact absurd hm (by simp [sketch_person, openGray])
      | .error e => exact absurd hm (by simp [sketch_person, openGray])
  · intro hfalse
    subst hfalse
    exact ⟨"No se detecto una persona en la imagen.", rfl⟩

/-- C10 witness: with `persona := false` the ValueError fires even for a
source that cannot be opened. -/
theorem C10_witness :
    ∃ m, sketch_person (Except.error "file not found") false =
      .error (.valueError m) :=
  (C10_sketch_person_check (Except.error "file not found") false).mpr rfl
